import Mathlib

/-!
Verification of the NeRF rasterization sample (`samples/general/nerf/nerf.cpp`)
against its design specification.  The C++ data paths that the specification
speaks about are shallowly embedded below: machine floats are modelled as
rationals, buffers of floats as lists of rationals, the JSON configuration as a
small inductive JSON type, and the fallible configuration reader as an
`Except` value (an `exit(1)` in the source corresponds to an `error` result).
-/

/-- A 3-component float vector (`glm::vec3`), modelled over the rationals. -/
abbrev Vec3Q := ℚ × ℚ × ℚ

/-! ## Mini JSON model (for `read_json_map`, nerf.cpp lines 178-374) -/

/-- JSON values as consumed by `read_json_map`. -/
inductive Json where
  | null
  | bool (value : Bool)
  | num (value : ℚ)
  | str (text : String)
  | arr (items : List Json)
  | obj (pairs : List (String × Json))

/-- `j[key]`: nlohmann `operator[]` on an object; a missing key (or a null
receiver) yields a null value. -/
def Json.index (j : Json) (key : String) : Json :=
  match j with
  | .obj pairs => (pairs.lookup key).getD .null
  | _ => .null

/-- `j.is_array() && j.size() == 3`, the guard used for `camera`, `dim` and
`interval` in `read_json_map`. -/
def Json.isArrayOf3 (j : Json) : Bool :=
  match j with
  | .arr items => items.length == 3
  | _ => false

/-- `j[i]` for an array value. -/
def Json.item (j : Json) (i : ℕ) : Json :=
  match j with
  | .arr items => items.getD i .null
  | _ => .null

/-- `get<float>()`: the numeric payload of a number value. -/
def Json.toRat (j : Json) : ℚ :=
  match j with
  | .num q => q
  | _ => 0

/-- `get<int>()`: the numeric payload truncated to an integer. -/
def Json.toInt (j : Json) : ℤ :=
  match j with
  | .num q => q.num / (q.den : ℤ)
  | _ => 0

/-- The camera position parsed from `asset_map["camera"]`
(nerf.cpp lines 339-346); a malformed field keeps the default value. -/
def read_camera_pos (asset_map : Json) (default_cam : Vec3Q) : Vec3Q :=
  if (asset_map.index "camera").isArrayOf3 then
    (((asset_map.index "camera").item 0).toRat,
     ((asset_map.index "camera").item 1).toRat,
     ((asset_map.index "camera").item 2).toRat)
  else default_cam

/-- The instancing dimension triple parsed from
`asset_map["instancing"]["dim"]` (nerf.cpp line 351). -/
def instancingDim (asset_map : Json) : ℤ × ℤ × ℤ :=
  ((((asset_map.index "instancing").index "dim").item 0).toInt,
   (((asset_map.index "instancing").index "dim").item 1).toInt,
   (((asset_map.index "instancing").index "dim").item 2).toInt)

/-- The instancing interval triple parsed from
`asset_map["instancing"]["interval"]` (nerf.cpp line 361). -/
def instancingInterval (asset_map : Json) : Vec3Q :=
  ((((asset_map.index "instancing").index "interval").item 0).toRat,
   (((asset_map.index "instancing").index "interval").item 1).toRat,
   (((asset_map.index "instancing").index "interval").item 2).toRat)

/-- The part of the scene configuration that `read_json_map` resolves and the
claims need: camera start position and instancing parameters. -/
structure SceneRead where
  camera_pos : Vec3Q
  dim : ℤ × ℤ × ℤ
  interval : Vec3Q

/-- `Nerf::read_json_map` (nerf.cpp lines 339-374): camera position read with
a default fallback, then the instancing block; a malformed `dim` or
`interval` field, or any non-positive component, calls `exit(1)`, modelled as
an `error` result. -/
def read_json_map (asset_map : Json) (default_cam : Vec3Q) : Except String SceneRead :=
  let camera_pos := read_camera_pos asset_map default_cam
  if ((asset_map.index "instancing").index "dim").isArrayOf3 then
    if ((asset_map.index "instancing").index "interval").isArrayOf3 then
      let d := instancingDim asset_map
      let itv := instancingInterval asset_map
      if d.1 ≤ 0 ∨ d.2.1 ≤ 0 ∨ d.2.2 ≤ 0 ∨ itv.1 ≤ 0 ∨ itv.2.1 ≤ 0 ∨ itv.2.2 ≤ 0 then
        .error "Instancing settings must be positive. Terminating"
      else
        .ok { camera_pos := camera_pos, dim := d, interval := itv }
    else
      .error "Wrong instancing interval. Terminating"
  else
    .error "Wrong instancing dimension. Terminating"

/-- Whether an `Except` value is a success. -/
def exceptIsOk {ε α : Type} (e : Except ε α) : Bool :=
  match e with
  | .ok _ => true
  | .error _ => false

/-- GPU-resource-creating phases of `Nerf::prepare` (nerf.cpp lines 403-489),
in program order.  `ApiVulkanSample::prepare` is the first call that creates
any GPU resource. -/
inductive GpuPhase where
  | apiSamplePrepare
  | renderPassSetup
  | framebufferSetup
deriving DecidableEq

/-- The control skeleton of `Nerf::prepare`: `read_json_map` runs first
(nerf.cpp line 405); on its `exit(1)` nothing further runs (second component
`true` records the fatal termination), otherwise the GPU phases follow. -/
def Nerf_prepare (asset_map : Json) (default_cam : Vec3Q) : List GpuPhase × Bool :=
  match read_json_map asset_map default_cam with
  | .error _ => ([], true)
  | .ok _ =>
      ([GpuPhase.apiSamplePrepare, GpuPhase.renderPassSetup, GpuPhase.framebufferSetup], false)

/-- The claim C4 trigger: instancing `dim`/`interval` absent or not a
3-element array, or some parsed component non-positive. -/
def badInstancing (asset_map : Json) : Prop :=
  ¬ ((asset_map.index "instancing").index "dim").isArrayOf3 = true ∨
  ¬ ((asset_map.index "instancing").index "interval").isArrayOf3 = true ∨
  (instancingDim asset_map).1 ≤ 0 ∨ (instancingDim asset_map).2.1 ≤ 0 ∨
  (instancingDim asset_map).2.2 ≤ 0 ∨
  (instancingInterval asset_map).1 ≤ 0 ∨ (instancingInterval asset_map).2.1 ≤ 0 ∨
  (instancingInterval asset_map).2.2 ≤ 0

/-- The camera state `Nerf::prepare` establishes (nerf.cpp lines 443-446):
the configured position with its y component negated, looking at the origin
with up (0,1,0). -/
structure CameraSetup where
  position : Vec3Q
  look_target : Vec3Q
  up : Vec3Q

/-- The camera portion of `Nerf::prepare`: after `read_json_map` succeeds the
code executes `camera_pos.y = -camera_pos.y; camera.set_position(camera_pos);
camera_set_look_at(camera, vec3(0), vec3(0,1,0))`. -/
def prepare_camera (asset_map : Json) (default_cam : Vec3Q) : Except String CameraSetup :=
  (read_json_map asset_map default_cam).map fun r =>
    { position := (r.camera_pos.1, -r.camera_pos.2.1, r.camera_pos.2.2),
      look_target := (0, 0, 0),
      up := (0, 1, 0) }

/-! ## Instancing grid (`Nerf::prepare_instance_data`, nerf.cpp lines 1418-1439) -/

/-- `corner_pos = -ii.interval * 0.5f * vec3(ii.dim - 1)`. -/
def corner_pos (dim : ℕ × ℕ × ℕ) (itv : Vec3Q) : Vec3Q :=
  (-itv.1 * (1/2) * ((dim.1 : ℚ) - 1),
   -itv.2.1 * (1/2) * ((dim.2.1 : ℚ) - 1),
   -itv.2.2 * (1/2) * ((dim.2.2 : ℚ) - 1))

/-- The per-instance position offsets filled by the triple loop in
`Nerf::prepare_instance_data`: x outermost, y middle, z innermost, each offset
being `corner_pos + interval * (x, y, z)`. -/
def prepare_instance_data (dim : ℕ × ℕ × ℕ) (itv : Vec3Q) : List Vec3Q :=
  (List.range dim.1).flatMap fun x : ℕ =>
    (List.range dim.2.1).flatMap fun y : ℕ =>
      (List.range dim.2.2).map fun z : ℕ =>
        ((corner_pos dim itv).1 + itv.1 * (x : ℚ),
         (corner_pos dim itv).2.1 + itv.2.1 * (y : ℚ),
         (corner_pos dim itv).2.2 + itv.2.2 * (z : ℚ))

/-! ## MLP weight packing (`Nerf::initialize_mlp_uniform_buffers`,
nerf.cpp lines 1236-1389) -/

/-- The expected element counts `WEIGHTS_0_COUNT`, ..., `BIAS_2_COUNT`.
They are preprocessor constants in `nerf.h`, which is outside the extracted
source; the packing loops are verified for arbitrary values of them. -/
structure MLPCounts where
  WEIGHTS_0_COUNT : ℕ
  WEIGHTS_1_COUNT : ℕ
  WEIGHTS_2_COUNT : ℕ
  BIAS_0_COUNT : ℕ
  BIAS_1_COUNT : ℕ
  BIAS_2_COUNT : ℕ

/-- The per-model `mlp.json` payload: three weight matrices (lists of rows)
and three bias vectors, plus the sub-model count `obj_num`. -/
structure MLPDescription where
  obj_num : ℕ
  weights_0_raw : List (List ℚ)
  bias_0_array : List ℚ
  weights_1_raw : List (List ℚ)
  bias_1_array : List ℚ
  weights_2_raw : List (List ℚ)
  bias_2_array : List ℚ

/-- Row-major flattening of a weight matrix: the loop
`weights_array.insert(weights_array.end(), row.begin(), row.end())`. -/
def flatten_rows (rows : List (List ℚ)) : List ℚ :=
  rows.foldl (fun acc row => acc ++ row) []

/-- The copy loop `model_mlp->data[offset + ii] = source[ii]` for
`ii < count` (used verbatim for layers 0 and 1 and their biases). -/
def copySeg (src : List ℚ) (count : ℕ) : List ℚ :=
  (List.range count).map fun ii => src.getD ii 0

/-- The layer-2 padding loop (nerf.cpp lines 1345-1356 and 1370-1382): for
`ii` from the current index with `fuel` iterations left, write `0.0` whenever
`(ii + 1) % 4 == 0` and otherwise the next raw source element
(`raw_weight_cnt++`). -/
def padLoop (src : List ℚ) : ℕ → ℕ → ℕ → List ℚ
  | _, _, 0 => []
  | ii, raw, fuel + 1 =>
      if (ii + 1) % 4 = 0 then 0 :: padLoop src (ii + 1) raw fuel
      else src.getD raw 0 :: padLoop src (ii + 1) (raw + 1) fuel

/-- The full layer-2 padding pass: `padLoop` started at index 0 with raw
counter 0, running for `total` iterations (`WEIGHTS_2_COUNT` resp.
`BIAS_2_COUNT` in the source). -/
def padEvery4 (src : List ℚ) (total : ℕ) : List ℚ :=
  padLoop src 0 0 total

/-- The packed `MLP_Weights::data` buffer written by
`initialize_mlp_uniform_buffers`: the six segments in the order and at the
offsets the source uses (layers 0 and 1 verbatim, layer 2 padded, then the
three biases, the last one padded). -/
def packMLP (c : MLPCounts) (d : MLPDescription) : List ℚ :=
  copySeg (flatten_rows d.weights_0_raw) c.WEIGHTS_0_COUNT ++
  copySeg (flatten_rows d.weights_1_raw) c.WEIGHTS_1_COUNT ++
  padEvery4 (flatten_rows d.weights_2_raw) c.WEIGHTS_2_COUNT ++
  copySeg d.bias_0_array c.BIAS_0_COUNT ++
  copySeg d.bias_1_array c.BIAS_1_COUNT ++
  padEvery4 d.bias_2_array c.BIAS_2_COUNT

/-- The six `LOGE` count validations of `initialize_mlp_uniform_buffers`
(nerf.cpp lines 1276-1329), in source order; each mismatch only appends a log
line.  Layer 2 is validated against `WEIGHTS_2_COUNT - 16` elements and its
bias against `BIAS_2_COUNT - 1`, the unpadded sizes. -/
def mlpSizeWarnings (c : MLPCounts) (d : MLPDescription) : List String :=
  (if (flatten_rows d.weights_0_raw).length ≠ c.WEIGHTS_0_COUNT then
    ["MLP data layer 0 weights count mismatch"] else []) ++
  (if d.bias_0_array.length ≠ c.BIAS_0_COUNT then
    ["MLP data layer 0 bias count mismatch"] else []) ++
  (if (flatten_rows d.weights_1_raw).length ≠ c.WEIGHTS_1_COUNT then
    ["MLP data layer 1 weights count mismatch"] else []) ++
  (if d.bias_1_array.length ≠ c.BIAS_1_COUNT then
    ["MLP data layer 1 bias count mismatch"] else []) ++
  (if (flatten_rows d.weights_2_raw).length ≠ c.WEIGHTS_2_COUNT - 16 then
    ["MLP data layer 2 weights count mismatch"] else []) ++
  (if d.bias_2_array.length ≠ c.BIAS_2_COUNT - 1 then
    ["MLP data layer 2 bias count mismatch"] else [])

/-- Any of the six count validations failing. -/
def mlpSizeMismatch (c : MLPCounts) (d : MLPDescription) : Prop :=
  (flatten_rows d.weights_0_raw).length ≠ c.WEIGHTS_0_COUNT ∨
  d.bias_0_array.length ≠ c.BIAS_0_COUNT ∨
  (flatten_rows d.weights_1_raw).length ≠ c.WEIGHTS_1_COUNT ∨
  d.bias_1_array.length ≠ c.BIAS_1_COUNT ∨
  (flatten_rows d.weights_2_raw).length ≠ c.WEIGHTS_2_COUNT - 16 ∨
  d.bias_2_array.length ≠ c.BIAS_2_COUNT - 1

/-- `Nerf::initialize_mlp_uniform_buffers` as observed at its interface: the
log lines it emits and the packed buffer it writes.  There is no abort path:
both components are produced for every description. -/
def initialize_mlp_uniform_buffers (c : MLPCounts) (d : MLPDescription) :
    List String × List ℚ :=
  (mlpSizeWarnings c d, packMLP c d)

/-- The number of `Model` entries after all `initialize_mlp_uniform_buffers`
calls: each call grows `models` by its description's `obj_num`
(nerf.cpp line 1260). -/
def models_entry_count (objNums : List ℕ) : ℕ :=
  objNums.foldl (fun acc n => acc + n) 0

/-- `model_path.size()` after `read_json_map`: the combo model list size in
combo mode, otherwise exactly 1 (nerf.cpp lines 285-304). -/
def model_path_count (combo_mode : Bool) (combo_models_size : ℕ) : ℕ :=
  if combo_mode then combo_models_size else 1

/-- The layer-2 padding rule as the specification words it: after every three
source elements insert a `0.0`. -/
def specLayer2Pack : List ℚ → List ℚ
  | a :: b :: c :: rest => a :: b :: c :: 0 :: specLayer2Pack rest
  | l => l

/-- The specification's inverse of the padding rule: drop every 4th element
(1-indexed) of the buffer, keeping the rest in order. -/
def dropEvery4 : ℕ → List ℚ → List ℚ
  | _, [] => []
  | i, a :: rest =>
      if (i + 1) % 4 = 0 then dropEvery4 (i + 1) rest
      else a :: dropEvery4 (i + 1) rest

/-- Helper recursion used only in proofs: the layer-2 output written once the
loop has completed `k` whole groups of four (so `ii = 4k`, `raw = 3k`), for
`m` further groups. -/
def padChunks (src : List ℚ) : ℕ → ℕ → List ℚ
  | _, 0 => []
  | k, m + 1 =>
      src.getD (3 * k) 0 :: src.getD (3 * k + 1) 0 :: src.getD (3 * k + 2) 0 :: 0 ::
        padChunks src (k + 1) m

/-! ## Render pass topology (`update_render_pass_nerf_forward` /
`update_render_pass_nerf_baseline`, nerf.cpp lines 1626-1816) -/

/-- The Vulkan image formats this sample mentions; the depth and swapchain
formats are environment-dependent and stay abstract parameters below. -/
inductive VkFormat where
  | R8G8B8A8_UNORM
  | R16G16B16A16_SFLOAT
  | R32G32B32A32_SFLOAT
  | other (code : ℕ)
deriving DecidableEq

/-- Attachment load operations used by the sample. -/
inductive LoadOp where
  | clear
  | dontCare
  | load
deriving DecidableEq

/-- Attachment store operations used by the sample. -/
inductive StoreOp where
  | store
  | dontCare
deriving DecidableEq

/-- Image layouts used by the sample's render passes. -/
inductive ImageLayout where
  | undefined
  | colorAttachmentOptimal
  | depthStencilAttachmentOptimal
  | shaderReadOnlyOptimal
  | presentSrc
deriving DecidableEq

/-- `VkAttachmentDescription` (the fields the sample sets). -/
structure AttachmentDescription where
  format : VkFormat
  loadOp : LoadOp
  storeOp : StoreOp
  stencilLoadOp : LoadOp
  stencilStoreOp : StoreOp
  initialLayout : ImageLayout
  finalLayout : ImageLayout

/-- `VkAttachmentReference`. -/
structure AttachmentReference where
  attachment : ℕ
  layout : ImageLayout

/-- `VkSubpassDescription`: the attachment reference lists; the counts the
claims speak about are the lengths of these lists. -/
structure SubpassDescription where
  colorAttachments : List AttachmentReference
  depthStencilAttachment : Option AttachmentReference
  inputAttachments : List AttachmentReference

/-- `VkSubpassDependency`; `none` stands for `VK_SUBPASS_EXTERNAL`. -/
structure SubpassDependency where
  srcSubpass : Option ℕ
  dstSubpass : Option ℕ

/-- `VkRenderPassCreateInfo`: attachments, sub-passes and dependencies. -/
structure RenderPassCreateInfo where
  attachments : List AttachmentDescription
  subpasses : List SubpassDescription
  dependencies : List SubpassDependency

/-- `Nerf::update_render_pass_nerf_forward` (nerf.cpp lines 1626-1678):
one sub-pass over a depth attachment and a swapchain attachment. -/
def update_render_pass_nerf_forward (depth_format swapchain_format : VkFormat) :
    RenderPassCreateInfo :=
  { attachments :=
      [{ format := depth_format, loadOp := .clear, storeOp := .dontCare,
         stencilLoadOp := .dontCare, stencilStoreOp := .store,
         initialLayout := .undefined, finalLayout := .depthStencilAttachmentOptimal },
       { format := swapchain_format, loadOp := .clear, storeOp := .store,
         stencilLoadOp := .dontCare, stencilStoreOp := .dontCare,
         initialLayout := .undefined, finalLayout := .presentSrc }],
    subpasses :=
      [{ colorAttachments := [{ attachment := 1, layout := .colorAttachmentOptimal }],
         depthStencilAttachment := some { attachment := 0, layout := .depthStencilAttachmentOptimal },
         inputAttachments := [] }],
    dependencies := [] }

/-- `Nerf::update_render_pass_nerf_baseline` (nerf.cpp lines 1680-1816):
three feature color attachments, depth, and the swapchain attachment; a
geometry sub-pass writing the three colors and a composition sub-pass reading
them as input attachments. -/
def update_render_pass_nerf_baseline (feature_map_format depth_format swapchain_format : VkFormat) :
    RenderPassCreateInfo :=
  { attachments :=
      [{ format := feature_map_format, loadOp := .clear, storeOp := .dontCare,
         stencilLoadOp := .dontCare, stencilStoreOp := .dontCare,
         initialLayout := .undefined, finalLayout := .colorAttachmentOptimal },
       { format := feature_map_format, loadOp := .clear, storeOp := .dontCare,
         stencilLoadOp := .dontCare, stencilStoreOp := .dontCare,
         initialLayout := .undefined, finalLayout := .colorAttachmentOptimal },
       { format := .R16G16B16A16_SFLOAT, loadOp := .clear, storeOp := .dontCare,
         stencilLoadOp := .dontCare, stencilStoreOp := .dontCare,
         initialLayout := .undefined, finalLayout := .colorAttachmentOptimal },
       { format := depth_format, loadOp := .clear, storeOp := .dontCare,
         stencilLoadOp := .dontCare, stencilStoreOp := .store,
         initialLayout := .undefined, finalLayout := .depthStencilAttachmentOptimal },
       { format := swapchain_format, loadOp := .clear, storeOp := .store,
         stencilLoadOp := .dontCare, stencilStoreOp := .dontCare,
         initialLayout := .undefined, finalLayout := .presentSrc }],
    subpasses :=
      [{ colorAttachments :=
           [{ attachment := 0, layout := .colorAttachmentOptimal },
            { attachment := 1, layout := .colorAttachmentOptimal },
            { attachment := 2, layout := .colorAttachmentOptimal }],
         depthStencilAttachment := some { attachment := 3, layout := .depthStencilAttachmentOptimal },
         inputAttachments := [] },
       { colorAttachments := [{ attachment := 4, layout := .colorAttachmentOptimal }],
         depthStencilAttachment := none,
         inputAttachments :=
           [{ attachment := 0, layout := .shaderReadOnlyOptimal },
            { attachment := 1, layout := .shaderReadOnlyOptimal },
            { attachment := 2, layout := .shaderReadOnlyOptimal }] }],
    dependencies :=
      [{ srcSubpass := none, dstSubpass := some 0 },
       { srcSubpass := some 0, dstSubpass := some 1 },
       { srcSubpass := some 1, dstSubpass := none }] }

/-- The render pass `Nerf::prepare` builds (nerf.cpp lines 429-436): baseline
when the deferred flag is set, forward otherwise. -/
def build_render_pass_nerf (use_deferred : Bool)
    (feature_map_format depth_format swapchain_format : VkFormat) : RenderPassCreateInfo :=
  if use_deferred then
    update_render_pass_nerf_baseline feature_map_format depth_format swapchain_format
  else
    update_render_pass_nerf_forward depth_format swapchain_format

/-- Descriptor types used by the sample's set layouts. -/
inductive DescriptorType where
  | combinedImageSampler
  | uniformBuffer
  | inputAttachment
deriving DecidableEq

/-- `VkDescriptorSetLayoutBinding` (binding index and type). -/
structure DescriptorSetLayoutBinding where
  binding : ℕ
  descriptorType : DescriptorType

/-- The second-pass descriptor set layout built by
`Nerf::create_pipeline_layout_baseline` (nerf.cpp lines 953-975): three input
attachments plus the MLP weights uniform buffer. -/
def create_pipeline_layout_baseline : List DescriptorSetLayoutBinding :=
  [{ binding := 0, descriptorType := .inputAttachment },
   { binding := 1, descriptorType := .inputAttachment },
   { binding := 2, descriptorType := .inputAttachment },
   { binding := 3, descriptorType := .uniformBuffer }]

/-- The first-pass descriptor set layout built by
`Nerf::create_pipeline_layout_fist_pass` (nerf.cpp lines 926-951): two
textures and the camera uniform, plus the weights uniform in forward mode. -/
def create_pipeline_layout_fist_pass (use_deferred : Bool) : List DescriptorSetLayoutBinding :=
  [{ binding := 0, descriptorType := .combinedImageSampler },
   { binding := 1, descriptorType := .combinedImageSampler },
   { binding := 2, descriptorType := .uniformBuffer }] ++
  (if use_deferred then [] else [{ binding := 3, descriptorType := .uniformBuffer }])

/-- The number of input-attachment bindings in a descriptor set layout. -/
def inputAttachmentBindingCount (bindings : List DescriptorSetLayoutBinding) : ℕ :=
  (bindings.filter fun b => b.descriptorType == DescriptorType.inputAttachment).length

/-! ## Frame command recording (`Nerf::build_command_buffers_baseline`,
nerf.cpp lines 715-831) -/

/-- The Vulkan commands the per-frame recording issues. -/
inductive Cmd where
  | beginRenderPass
  | setViewport
  | setScissor
  | bindPipeline (pipeline : ℕ)
  | bindDescriptorSets (index : ℕ)
  | bindVertexBuffer (binding : ℕ)
  | bindIndexBuffer
  | drawIndexed (indexCount instanceCount firstIndex vertexOffset firstInstance : ℕ)
  | nextSubpass
  | bindPipelineBaseline
  | bindDescriptorSetsBaseline (index : ℕ)
  | draw (vertexCount instanceCount firstVertex firstInstance : ℕ)
  | endRenderPass
  | drawUserInterface
deriving DecidableEq

/-- The per-model state the recording loop consumes: the pipeline handle and
`model.indices.size()` (number of index triangles). -/
structure ModelRec where
  pipeline : ℕ
  indicesSize : ℕ

/-- The body of the per-model loop (nerf.cpp lines 789-802): bind pipeline,
descriptor set (`0` if deferred, the frame index otherwise), the vertex,
instance and index buffers, then one indexed instanced draw with
`model.indices.size() * 3` indices and `dim.x * dim.y * dim.z` instances. -/
def record_model (use_deferred : Bool) (frame : ℕ) (dim : ℕ × ℕ × ℕ) (m : ModelRec) :
    List Cmd :=
  [Cmd.bindPipeline m.pipeline,
   Cmd.bindDescriptorSets (if use_deferred then 0 else frame),
   Cmd.bindVertexBuffer 0,
   Cmd.bindVertexBuffer 1,
   Cmd.bindIndexBuffer,
   Cmd.drawIndexed (m.indicesSize * 3) (dim.1 * dim.2.1 * dim.2.2) 0 0 0]

/-- One frame's command list from `build_command_buffers_baseline`: render
pass begin, viewport/scissor, the per-model loop, the optional second
sub-pass (full-screen triangle, 3 vertices, 1 instance), render pass end and
the UI pass. -/
def build_command_buffer_frame (use_deferred : Bool) (frame : ℕ) (dim : ℕ × ℕ × ℕ)
    (models : List ModelRec) : List Cmd :=
  [Cmd.beginRenderPass, Cmd.setViewport, Cmd.setScissor] ++
  models.flatMap (record_model use_deferred frame dim) ++
  (if use_deferred then
    [Cmd.nextSubpass, Cmd.bindPipelineBaseline, Cmd.bindDescriptorSetsBaseline frame,
     Cmd.draw 3 1 0 0]
   else []) ++
  [Cmd.endRenderPass, Cmd.beginRenderPass, Cmd.drawUserInterface, Cmd.endRenderPass]

/-- Recognizer for indexed instanced draw commands. -/
def isDrawIndexed : Cmd → Bool
  | .drawIndexed _ _ _ _ _ => true
  | _ => false

/-! ## `CopyBuffer` (nerf.cpp lines 48-76) -/

/-- Buffer map/unmap calls observable at the `vkb::core::Buffer` interface. -/
inductive MapEvent where
  | map
  | unmap
deriving DecidableEq

/-- The state of a `vkb::core::Buffer` as `CopyBuffer` sees it: its size, its
byte content, and whether it is currently mapped (`get_data() != nullptr`). -/
structure BufferState where
  size : ℕ
  bytes : List ℕ
  mapped : Bool

/-- `CopyBuffer<T>::operator()`: looks the name up in the buffer map; when
absent returns the empty vector (no events); otherwise sizes the output to
`size / sizeof(T)` elements, maps the buffer when it was not already mapped,
copies the bytes, and unmaps only in that same case.  Returns the copied
elements (as byte chunks of `elemSize`), the map/unmap events issued, and the
buffer's final mapped state (`none` when the buffer was absent). -/
def CopyBuffer (elemSize : ℕ) (buffers : List (String × BufferState)) (buffer_name : String) :
    List (List ℕ) × List MapEvent × Option Bool :=
  match buffers.lookup buffer_name with
  | none => ([], [], none)
  | some b =>
      let out := (List.range (b.size / elemSize)).map fun i =>
        (b.bytes.drop (i * elemSize)).take elemSize
      let already_mapped := b.mapped
      let mappedAfterMapCall := if already_mapped then b.mapped else true
      let mappedFinal := if already_mapped then mappedAfterMapCall else false
      let events := (if already_mapped then [] else [MapEvent.map]) ++
        (if already_mapped then [] else [MapEvent.unmap])
      (out, events, some mappedFinal)

/-! ## Concrete example inputs used to instantiate the theorems below -/

/-- Example counts consistent with a 6-element layer-2 weight array and a
3-element layer-2 bias (padded lengths 8 and 4). -/
def countsW : MLPCounts :=
  { WEIGHTS_0_COUNT := 4, WEIGHTS_1_COUNT := 4, WEIGHTS_2_COUNT := 8,
    BIAS_0_COUNT := 2, BIAS_1_COUNT := 2, BIAS_2_COUNT := 4 }

/-- Counts whose layer-0 expectation disagrees with `mlpW`. -/
def countsMismatch : MLPCounts :=
  { WEIGHTS_0_COUNT := 5, WEIGHTS_1_COUNT := 4, WEIGHTS_2_COUNT := 8,
    BIAS_0_COUNT := 2, BIAS_1_COUNT := 2, BIAS_2_COUNT := 4 }

/-- Example MLP description; its layer-2 weights flatten to the
specification's example source `[1,2,3,4,5,6]`. -/
def mlpW : MLPDescription :=
  { obj_num := 1,
    weights_0_raw := [[1, 2], [3, 4]], bias_0_array := [5, 6],
    weights_1_raw := [[7, 8, 9, 10]], bias_1_array := [11, 12],
    weights_2_raw := [[1, 2, 3], [4, 5, 6]], bias_2_array := [13, 14, 15] }

/-- A scene entry whose instancing dimension has a zero component. -/
def assetMapBadDim : Json :=
  .obj [("instancing", .obj
    [("dim", .arr [.num 0, .num 1, .num 1]),
     ("interval", .arr [.num 2, .num 2, .num 2])])]

/-- A well-formed scene entry shaped like the embedded `lego_ball` entry:
camera `[-1, 1, 1]`, dim `[1, 1, 1]`, interval `[2, 2, 2]`. -/
def assetMapLegoBall : Json :=
  .obj [("camera", .arr [.num (-1), .num 1, .num 1]),
        ("instancing", .obj
          [("dim", .arr [.num 1, .num 1, .num 1]),
           ("interval", .arr [.num 2, .num 2, .num 2])])]

/-- A buffer map with one unmapped and one already-mapped buffer. -/
def buffersW : List (String × BufferState) :=
  [("position", { size := 4, bytes := [10, 11, 12, 13], mapped := false }),
   ("texcoord_0", { size := 2, bytes := [1, 2], mapped := true })]

/-! ## List helpers -/

/-- Length of a `flatMap` over `List.range` with blocks of uniform length. -/
theorem flatMap_range_length {α : Type} (n m : ℕ) (g : ℕ → List α)
    (h : ∀ i, (g i).length = m) : ((List.range n).flatMap g).length = n * m := by
  induction n with
  | zero => simp
  | succ n ih =>
      rw [List.range_succ, List.flatMap_append]
      simp [ih, h, Nat.succ_mul]

/-- Indexing into a `flatMap` over `List.range` with blocks of uniform
length: block `x`, offset `j`. -/
theorem flatMap_range_getD {α : Type} (n m : ℕ) (g : ℕ → List α) (d : α)
    (h : ∀ i, (g i).length = m) (x j : ℕ) (hx : x < n) (hj : j < m) :
    ((List.range n).flatMap g).getD (x * m + j) d = (g x).getD j d := by
  induction n with
  | zero => omega
  | succ n ih =>
      rw [List.range_succ, List.flatMap_append]
      by_cases hxn : x < n
      · rw [List.getD_append]
        · exact ih hxn
        · rw [flatMap_range_length n m g h]
          have h1 : (x + 1) * m = x * m + m := by ring
          have h2 : (x + 1) * m ≤ n * m := Nat.mul_le_mul_right m (by omega)
          omega
      · have hxe : x = n := by omega
        rw [hxe]
        have hlen : ((List.range n).flatMap g).length = n * m := flatMap_range_length n m g h
        rw [List.getD_append_right _ _ _ _ (by rw [hlen]; exact Nat.le_add_right _ _), hlen]
        simp

/-- C3: for all dimension triples with components at least 1 and positive
interval triples, `prepare_instance_data` yields exactly
`dim.x * dim.y * dim.z` offsets; the offset at linear index
`x * (dim.y * dim.z) + y * dim.z + z` (x outermost, z innermost) equals
`corner + (x * dx, y * dy, z * dz)`; and the offset set is symmetric about
the origin. -/
theorem instancing_grid_lattice (dim : ℕ × ℕ × ℕ) (itv : Vec3Q)
    (hx : 1 ≤ dim.1) (hy : 1 ≤ dim.2.1) (hz : 1 ≤ dim.2.2)
    (hix : 0 < itv.1) (hiy : 0 < itv.2.1) (hiz : 0 < itv.2.2) :
    (prepare_instance_data dim itv).length = dim.1 * (dim.2.1 * dim.2.2) ∧
    (∀ x y z, x < dim.1 → y < dim.2.1 → z < dim.2.2 →
      (prepare_instance_data dim itv).getD (x * (dim.2.1 * dim.2.2) + y * dim.2.2 + z) (0, 0, 0) =
        ((corner_pos dim itv).1 + itv.1 * x,
         (corner_pos dim itv).2.1 + itv.2.1 * y,
         (corner_pos dim itv).2.2 + itv.2.2 * z)) ∧
    (∀ v ∈ prepare_instance_data dim itv,
      (-v.1, -v.2.1, -v.2.2) ∈ prepare_instance_data dim itv) := by
  have hinner : ∀ x : ℕ,
      (((List.range dim.2.1).flatMap fun y : ℕ => (List.range dim.2.2).map fun z : ℕ =>
        ((corner_pos dim itv).1 + itv.1 * (x : ℚ),
         (corner_pos dim itv).2.1 + itv.2.1 * (y : ℚ),
         (corner_pos dim itv).2.2 + itv.2.2 * (z : ℚ))).length) = dim.2.1 * dim.2.2 := by
    intro x
    exact flatMap_range_length _ _ _ (fun y => by simp)
  refine ⟨?_, ?_, ?_⟩
  · exact flatMap_range_length _ _ _ hinner
  · intro x y z hxlt hylt hzlt
    rw [prepare_instance_data, Nat.add_assoc]
    rw [flatMap_range_getD dim.1 (dim.2.1 * dim.2.2) _ _ hinner x (y * dim.2.2 + z) hxlt
      (by
        have h1 := Nat.mul_le_mul_right dim.2.2 (Nat.succ_le_of_lt hylt)
        have h2 : y.succ * dim.2.2 = y * dim.2.2 + dim.2.2 := Nat.succ_mul _ _
        omega)]
    rw [flatMap_range_getD dim.2.1 dim.2.2 _ _ (fun y => by simp) y z hylt hzlt]
    rw [List.getD_eq_getElem _ _ (by simpa using hzlt)]
    simp
  · intro v hv
    rw [prepare_instance_data] at hv ⊢
    simp only [List.mem_flatMap, List.mem_map, List.mem_range] at hv ⊢
    obtain ⟨x, hxlt, y, hylt, z, hzlt, rfl⟩ := hv
    refine ⟨dim.1 - 1 - x, by omega, dim.2.1 - 1 - y, by omega, dim.2.2 - 1 - z, by omega, ?_⟩
    have cx : ((dim.1 - 1 - x : ℕ) : ℚ) = (dim.1 : ℚ) - 1 - (x : ℚ) := by
      push_cast [Nat.cast_sub (by omega : x ≤ dim.1 - 1), Nat.cast_sub hx]
      ring
    have cy : ((dim.2.1 - 1 - y : ℕ) : ℚ) = (dim.2.1 : ℚ) - 1 - (y : ℚ) := by
      push_cast [Nat.cast_sub (by omega : y ≤ dim.2.1 - 1), Nat.cast_sub hy]
      ring
    have cz : ((dim.2.2 - 1 - z : ℕ) : ℚ) = (dim.2.2 : ℚ) - 1 - (z : ℚ) := by
      push_cast [Nat.cast_sub (by omega : z ≤ dim.2.2 - 1), Nat.cast_sub hz]
      ring
    rw [cx, cy, cz]
    simp only [corner_pos, Prod.mk.injEq]
    refine ⟨by ring, by ring, by ring⟩

/-- Closed instantiation of `instancing_grid_lattice` at dimension
`(2, 1, 1)` and interval `(2, 2, 2)`. -/
theorem instancing_grid_lattice_witness :
    (prepare_instance_data (2, 1, 1) (2, 2, 2)).length = 2 * (1 * 1) ∧
    ((-1 : ℚ), (0 : ℚ), (0 : ℚ)) ∈ prepare_instance_data (2, 1, 1) (2, 2, 2) := by
  have h := instancing_grid_lattice (2, 1, 1) (2, 2, 2)
    (by norm_num) (by norm_num) (by norm_num) (by norm_num) (by norm_num) (by norm_num)
  refine ⟨h.1, ?_⟩
  have hmem : ((1 : ℚ), (0 : ℚ), (0 : ℚ)) ∈ prepare_instance_data (2, 1, 1) (2, 2, 2) := by
    rw [prepare_instance_data]
    simp only [List.mem_flatMap, List.mem_map, List.mem_range]
    exact ⟨1, by norm_num, 0, by norm_num, 0, by norm_num, by norm_num [corner_pos]⟩
  have := h.2.2 (1, 0, 0) hmem
  simpa using this

/-! ## MLP packing lemmas -/

/-- `copySeg` always produces `count` elements. -/
theorem copySeg_length (src : List ℚ) (count : ℕ) : (copySeg src count).length = count := by
  simp [copySeg]

/-- A verbatim copy of a well-sized source is the source itself. -/
theorem copySeg_eq_self (src : List ℚ) (count : ℕ) (h : src.length = count) :
    copySeg src count = src := by
  subst h
  apply List.ext_getElem
  · simp [copySeg]
  · intro i h1 h2
    simp only [copySeg, List.getElem_map, List.getElem_range]
    exact List.getD_eq_getElem src 0 h2

/-- `flatten_rows` is row-major flattening. -/
theorem flatten_rows_eq_flatten (rows : List (List ℚ)) : flatten_rows rows = rows.flatten := by
  have key : ∀ (rs : List (List ℚ)) (acc : List ℚ),
      rs.foldl (fun a row => a ++ row) acc = acc ++ rs.flatten := by
    intro rs
    induction rs with
    | nil => intro acc; simp
    | cons r t ih => intro acc; simp [ih, List.append_assoc]
  simpa using key rows []

/-- `padLoop` emits exactly `fuel` elements. -/
theorem padLoop_length (src : List ℚ) :
    ∀ fuel ii raw, (padLoop src ii raw fuel).length = fuel := by
  intro fuel
  induction fuel with
  | zero => intro ii raw; rfl
  | succ n ih =>
      intro ii raw
      rw [padLoop]
      split <;> simp [ih]

/-- `padEvery4` emits exactly `total` elements. -/
theorem padEvery4_length (src : List ℚ) (total : ℕ) : (padEvery4 src total).length = total :=
  padLoop_length src total 0 0

/-- Running the padding loop from a group boundary produces the groups-of-four
normal form `padChunks`. -/
theorem padLoop_eq_padChunks (src : List ℚ) :
    ∀ m k, padLoop src (4 * k) (3 * k) (4 * m) = padChunks src k m := by
  intro m
  induction m with
  | zero => intro k; rfl
  | succ m ih =>
      intro k
      have e : 4 * (m + 1) = 4 * m + 4 := by ring
      rw [e, show 4 * m + 4 = ((((4 * m) + 1) + 1) + 1) + 1 from rfl]
      have h1 : ¬ (4 * k + 1) % 4 = 0 := by omega
      have h2 : ¬ (4 * k + 1 + 1) % 4 = 0 := by omega
      have h3 : ¬ (4 * k + 1 + 1 + 1) % 4 = 0 := by omega
      have h4 : (4 * k + 1 + 1 + 1 + 1) % 4 = 0 := by omega
      simp only [padLoop, if_neg h1, if_neg h2, if_neg h3, if_pos h4]
      have e3 : 4 * k + 1 + 1 + 1 + 1 = 4 * (k + 1) := by ring
      have e4 : 3 * k + 1 + 1 + 1 = 3 * (k + 1) := by ring
      rw [e3, e4, ih (k + 1)]
      simp [padChunks, show 3 * k + 1 + 1 = 3 * k + 2 from rfl]

/-- `padChunks` emits four elements per group. -/
theorem padChunks_length (src : List ℚ) : ∀ m k, (padChunks src k m).length = 4 * m := by
  intro m
  induction m with
  | zero => intro k; rfl
  | succ m ih =>
      intro k
      simp only [padChunks, List.length_cons, ih (k + 1)]
      omega

/-- Every 4th element (1-indexed) of the padded output is zero. -/
theorem padChunks_getD_zero (src : List ℚ) (d : ℚ) :
    ∀ m k j, j < 4 * m → (j + 1) % 4 = 0 → (padChunks src k m).getD j d = 0 := by
  intro m
  induction m with
  | zero => intro k j hj _; omega
  | succ m ih =>
      intro k j hj hmod
      by_cases h4 : j < 4
      · interval_cases j
        · omega
        · omega
        · omega
        · simp [padChunks]
      · obtain ⟨j', rfl⟩ : ∃ j', j = j' + 4 := ⟨j - 4, by omega⟩
        simp only [padChunks, show ∀ a (l : List ℚ), l.getD j' d = (a :: l).getD (j' + 1) d
          from fun a l => rfl]
        show (padChunks src (k + 1) m).getD j' d = 0
        have hjlt : j' < 4 * m := by omega
        have hjmod : (j' + 1) % 4 = 0 := by omega
        exact ih (k + 1) j' hjlt hjmod

/-- The remaining three of every four positions hold the source elements,
position `j` holding source element `j - j / 4`. -/
theorem padChunks_getD_src (src : List ℚ) (d : ℚ) :
    ∀ m k j, j < 4 * m → (j + 1) % 4 ≠ 0 →
      (padChunks src k m).getD j d = src.getD (3 * k + (j - j / 4)) 0 := by
  intro m
  induction m with
  | zero => intro k j hj _; omega
  | succ m ih =>
      intro k j hj hmod
      by_cases h4 : j < 4
      · interval_cases j
        · simp [padChunks]
        · simp [padChunks]
        · simp [padChunks]
        · omega
      · obtain ⟨j', rfl⟩ : ∃ j', j = j' + 4 := ⟨j - 4, by omega⟩
        show (padChunks src (k + 1) m).getD j' d = _
        have e : 3 * k + (j' + 4 - (j' + 4) / 4) = 3 * (k + 1) + (j' - j' / 4) := by omega
        rw [e]
        have hjlt : j' < 4 * m := by omega
        have hjmod : (j' + 1) % 4 ≠ 0 := by omega
        exact ih (k + 1) j' hjlt hjmod

/-- From a group boundary, `padChunks` agrees with the specification's
groups-of-three-then-zero description of the remaining source. -/
theorem padChunks_eq_spec (src : List ℚ) :
    ∀ m k, src.length = 3 * (k + m) →
      padChunks src k m = specLayer2Pack (src.drop (3 * k)) := by
  intro m
  induction m with
  | zero =>
      intro k h
      rw [List.drop_eq_nil_of_le (by omega)]
      rfl
  | succ m ih =>
      intro k h
      have h0 : 3 * k < src.length := by omega
      have h1 : 3 * k + 1 < src.length := by omega
      have h2 : 3 * k + 2 < src.length := by omega
      have hd : src.drop (3 * k) =
          src[3 * k] :: src[3 * k + 1] :: src[3 * k + 2] :: src.drop (3 * k + 3) := by
        rw [List.drop_eq_getElem_cons h0, List.drop_eq_getElem_cons h1,
          List.drop_eq_getElem_cons h2]
      rw [hd]
      show padChunks src k (m + 1) = _
      simp only [specLayer2Pack, padChunks]
      rw [List.getD_eq_getElem src 0 h0, List.getD_eq_getElem src 0 h1,
        List.getD_eq_getElem src 0 h2]
      have etail : padChunks src (k + 1) m = specLayer2Pack (src.drop (3 * (k + 1))) :=
        ih (k + 1) (by omega)
      rw [etail, show 3 * (k + 1) = 3 * k + 3 from by ring]

/-- The padding pass on a source of length `3 * m` (with padded length
`4 * m`) is the specification's pack. -/
theorem padEvery4_eq_spec (src : List ℚ) (m : ℕ) (h : src.length = 3 * m) :
    padEvery4 src (4 * m) = specLayer2Pack src := by
  have h1 : padEvery4 src (4 * m) = padChunks src 0 m := by
    have := padLoop_eq_padChunks src m 0
    simpa [padEvery4] using this
  rw [h1, padChunks_eq_spec src m 0 (by omega)]
  simp

/-- `padEvery4` at a group boundary count, as `padChunks`. -/
theorem padEvery4_eq_padChunks (src : List ℚ) (m : ℕ) :
    padEvery4 src (4 * m) = padChunks src 0 m := by
  have := padLoop_eq_padChunks src m 0
  simpa [padEvery4] using this

/-- The layer-2 weights segment of the packed buffer. -/
theorem packMLP_weights2_segment (c : MLPCounts) (d : MLPDescription) :
    ((packMLP c d).drop (c.WEIGHTS_0_COUNT + c.WEIGHTS_1_COUNT)).take c.WEIGHTS_2_COUNT =
      padEvery4 (flatten_rows d.weights_2_raw) c.WEIGHTS_2_COUNT := by
  have hsplit : packMLP c d =
      (copySeg (flatten_rows d.weights_0_raw) c.WEIGHTS_0_COUNT ++
       copySeg (flatten_rows d.weights_1_raw) c.WEIGHTS_1_COUNT) ++
      (padEvery4 (flatten_rows d.weights_2_raw) c.WEIGHTS_2_COUNT ++
       (copySeg d.bias_0_array c.BIAS_0_COUNT ++
        (copySeg d.bias_1_array c.BIAS_1_COUNT ++
         padEvery4 d.bias_2_array c.BIAS_2_COUNT))) := by
    simp [packMLP, List.append_assoc]
  rw [hsplit]
  have hab : (copySeg (flatten_rows d.weights_0_raw) c.WEIGHTS_0_COUNT ++
      copySeg (flatten_rows d.weights_1_raw) c.WEIGHTS_1_COUNT).length =
      c.WEIGHTS_0_COUNT + c.WEIGHTS_1_COUNT := by
    simp [copySeg_length]
  rw [← hab, List.drop_left]
  rw [← List.append_assoc]
  rw [show padEvery4 (flatten_rows d.weights_2_raw) c.WEIGHTS_2_COUNT ++
      copySeg d.bias_0_array c.BIAS_0_COUNT ++
      (copySeg d.bias_1_array c.BIAS_1_COUNT ++ padEvery4 d.bias_2_array c.BIAS_2_COUNT) =
      padEvery4 (flatten_rows d.weights_2_raw) c.WEIGHTS_2_COUNT ++
      (copySeg d.bias_0_array c.BIAS_0_COUNT ++
      (copySeg d.bias_1_array c.BIAS_1_COUNT ++
      padEvery4 d.bias_2_array c.BIAS_2_COUNT)) from by simp [List.append_assoc]]
  have hP : (padEvery4 (flatten_rows d.weights_2_raw) c.WEIGHTS_2_COUNT).length =
      c.WEIGHTS_2_COUNT := padEvery4_length _ _
  nth_rewrite 1 [← hP]
  rw [List.take_left]

/-- The layer-2 bias segment of the packed buffer (its final segment). -/
theorem packMLP_bias2_segment (c : MLPCounts) (d : MLPDescription) :
    (packMLP c d).drop (c.WEIGHTS_0_COUNT + c.WEIGHTS_1_COUNT + c.WEIGHTS_2_COUNT +
      c.BIAS_0_COUNT + c.BIAS_1_COUNT) = padEvery4 d.bias_2_array c.BIAS_2_COUNT := by
  rw [packMLP]
  have hlen : (copySeg (flatten_rows d.weights_0_raw) c.WEIGHTS_0_COUNT ++
      copySeg (flatten_rows d.weights_1_raw) c.WEIGHTS_1_COUNT ++
      padEvery4 (flatten_rows d.weights_2_raw) c.WEIGHTS_2_COUNT ++
      copySeg d.bias_0_array c.BIAS_0_COUNT ++
      copySeg d.bias_1_array c.BIAS_1_COUNT).length =
      c.WEIGHTS_0_COUNT + c.WEIGHTS_1_COUNT + c.WEIGHTS_2_COUNT +
      c.BIAS_0_COUNT + c.BIAS_1_COUNT := by
    simp [copySeg_length, padEvery4_length]
    omega
  rw [← hlen, List.drop_left]

/-- The layer-0 weights segment of the packed buffer. -/
theorem packMLP_weights0_segment (c : MLPCounts) (d : MLPDescription) :
    (packMLP c d).take c.WEIGHTS_0_COUNT = copySeg (flatten_rows d.weights_0_raw) c.WEIGHTS_0_COUNT := by
  have hsplit : packMLP c d =
      copySeg (flatten_rows d.weights_0_raw) c.WEIGHTS_0_COUNT ++
      (copySeg (flatten_rows d.weights_1_raw) c.WEIGHTS_1_COUNT ++
       (padEvery4 (flatten_rows d.weights_2_raw) c.WEIGHTS_2_COUNT ++
        (copySeg d.bias_0_array c.BIAS_0_COUNT ++
         (copySeg d.bias_1_array c.BIAS_1_COUNT ++
          padEvery4 d.bias_2_array c.BIAS_2_COUNT)))) := by
    simp [packMLP, List.append_assoc]
  rw [hsplit]
  nth_rewrite 1 [← copySeg_length (flatten_rows d.weights_0_raw) c.WEIGHTS_0_COUNT]
  rw [List.take_left]

/-- The layer-1 weights segment of the packed buffer. -/
theorem packMLP_weights1_segment (c : MLPCounts) (d : MLPDescription) :
    ((packMLP c d).drop c.WEIGHTS_0_COUNT).take c.WEIGHTS_1_COUNT =
      copySeg (flatten_rows d.weights_1_raw) c.WEIGHTS_1_COUNT := by
  have hsplit : packMLP c d =
      copySeg (flatten_rows d.weights_0_raw) c.WEIGHTS_0_COUNT ++
      (copySeg (flatten_rows d.weights_1_raw) c.WEIGHTS_1_COUNT ++
       (padEvery4 (flatten_rows d.weights_2_raw) c.WEIGHTS_2_COUNT ++
        (copySeg d.bias_0_array c.BIAS_0_COUNT ++
         (copySeg d.bias_1_array c.BIAS_1_COUNT ++
          padEvery4 d.bias_2_array c.BIAS_2_COUNT)))) := by
    simp [packMLP, List.append_assoc]
  rw [hsplit]
  nth_rewrite 1 [← copySeg_length (flatten_rows d.weights_0_raw) c.WEIGHTS_0_COUNT]
  rw [List.drop_left]
  nth_rewrite 1 [← copySeg_length (flatten_rows d.weights_1_raw) c.WEIGHTS_1_COUNT]
  rw [List.take_left]

/-- The layer-0 bias segment of the packed buffer. -/
theorem packMLP_bias0_segment (c : MLPCounts) (d : MLPDescription) :
    ((packMLP c d).drop (c.WEIGHTS_0_COUNT + c.WEIGHTS_1_COUNT + c.WEIGHTS_2_COUNT)).take
      c.BIAS_0_COUNT = copySeg d.bias_0_array c.BIAS_0_COUNT := by
  have hsplit : packMLP c d =
      (copySeg (flatten_rows d.weights_0_raw) c.WEIGHTS_0_COUNT ++
       copySeg (flatten_rows d.weights_1_raw) c.WEIGHTS_1_COUNT ++
       padEvery4 (flatten_rows d.weights_2_raw) c.WEIGHTS_2_COUNT) ++
      (copySeg d.bias_0_array c.BIAS_0_COUNT ++
       (copySeg d.bias_1_array c.BIAS_1_COUNT ++
        padEvery4 d.bias_2_array c.BIAS_2_COUNT)) := by
    simp [packMLP, List.append_assoc]
  have hlen : (copySeg (flatten_rows d.weights_0_raw) c.WEIGHTS_0_COUNT ++
      copySeg (flatten_rows d.weights_1_raw) c.WEIGHTS_1_COUNT ++
      padEvery4 (flatten_rows d.weights_2_raw) c.WEIGHTS_2_COUNT).length =
      c.WEIGHTS_0_COUNT + c.WEIGHTS_1_COUNT + c.WEIGHTS_2_COUNT := by
    simp [copySeg_length, padEvery4_length]
    omega
  rw [hsplit, ← hlen, List.drop_left]
  nth_rewrite 1 [← copySeg_length d.bias_0_array c.BIAS_0_COUNT]
  rw [List.take_left]

/-- The layer-1 bias segment of the packed buffer. -/
theorem packMLP_bias1_segment (c : MLPCounts) (d : MLPDescription) :
    ((packMLP c d).drop (c.WEIGHTS_0_COUNT + c.WEIGHTS_1_COUNT + c.WEIGHTS_2_COUNT +
      c.BIAS_0_COUNT)).take c.BIAS_1_COUNT = copySeg d.bias_1_array c.BIAS_1_COUNT := by
  have hsplit : packMLP c d =
      (copySeg (flatten_rows d.weights_0_raw) c.WEIGHTS_0_COUNT ++
       copySeg (flatten_rows d.weights_1_raw) c.WEIGHTS_1_COUNT ++
       padEvery4 (flatten_rows d.weights_2_raw) c.WEIGHTS_2_COUNT ++
       copySeg d.bias_0_array c.BIAS_0_COUNT) ++
      (copySeg d.bias_1_array c.BIAS_1_COUNT ++
       padEvery4 d.bias_2_array c.BIAS_2_COUNT) := by
    simp [packMLP, List.append_assoc]
  have hlen : (copySeg (flatten_rows d.weights_0_raw) c.WEIGHTS_0_COUNT ++
      copySeg (flatten_rows d.weights_1_raw) c.WEIGHTS_1_COUNT ++
      padEvery4 (flatten_rows d.weights_2_raw) c.WEIGHTS_2_COUNT ++
      copySeg d.bias_0_array c.BIAS_0_COUNT).length =
      c.WEIGHTS_0_COUNT + c.WEIGHTS_1_COUNT + c.WEIGHTS_2_COUNT + c.BIAS_0_COUNT := by
    simp [copySeg_length, padEvery4_length]
    omega
  rw [hsplit, ← hlen, List.drop_left]
  nth_rewrite 1 [← copySeg_length d.bias_1_array c.BIAS_1_COUNT]
  rw [List.take_left]

/-- C1: for a layer-2 weight source array of length `L` divisible by 3 (the
shape the packer's fixed constants realize: padded length `L + L/3`), the
packed segment written by `initialize_mlp_uniform_buffers` has length
`L + ceil(L/3)`, every 4th element (1-indexed) is `0.0`, the remaining three
of every four positions hold the source elements in their original order
(position `j` holds source element `j - j/4`), and the segment equals the
specification's groups-of-three-then-zero pack; likewise for the layer-2
bias segment. -/
theorem mlp_layer2_padding_rule (c : MLPCounts) (d : MLPDescription) (Lw Lb : ℕ)
    (hwlen : (flatten_rows d.weights_2_raw).length = Lw) (hw3 : 3 ∣ Lw)
    (hcw : c.WEIGHTS_2_COUNT = Lw + (Lw + 2) / 3)
    (hblen : d.bias_2_array.length = Lb) (hb3 : 3 ∣ Lb)
    (hcb : c.BIAS_2_COUNT = Lb + (Lb + 2) / 3) :
    (((packMLP c d).drop (c.WEIGHTS_0_COUNT + c.WEIGHTS_1_COUNT)).take
      c.WEIGHTS_2_COUNT).length = Lw + (Lw + 2) / 3 ∧
    (∀ j, j < Lw + (Lw + 2) / 3 → (j + 1) % 4 = 0 →
      (((packMLP c d).drop (c.WEIGHTS_0_COUNT + c.WEIGHTS_1_COUNT)).take
        c.WEIGHTS_2_COUNT).getD j 1 = 0) ∧
    (∀ j, j < Lw + (Lw + 2) / 3 → (j + 1) % 4 ≠ 0 →
      (((packMLP c d).drop (c.WEIGHTS_0_COUNT + c.WEIGHTS_1_COUNT)).take
        c.WEIGHTS_2_COUNT).getD j 0 = (flatten_rows d.weights_2_raw).getD (j - j / 4) 0) ∧
    ((packMLP c d).drop (c.WEIGHTS_0_COUNT + c.WEIGHTS_1_COUNT)).take c.WEIGHTS_2_COUNT =
      specLayer2Pack (flatten_rows d.weights_2_raw) ∧
    ((packMLP c d).drop (c.WEIGHTS_0_COUNT + c.WEIGHTS_1_COUNT + c.WEIGHTS_2_COUNT +
      c.BIAS_0_COUNT + c.BIAS_1_COUNT)).length = Lb + (Lb + 2) / 3 ∧
    (∀ j, j < Lb + (Lb + 2) / 3 → (j + 1) % 4 = 0 →
      ((packMLP c d).drop (c.WEIGHTS_0_COUNT + c.WEIGHTS_1_COUNT + c.WEIGHTS_2_COUNT +
        c.BIAS_0_COUNT + c.BIAS_1_COUNT)).getD j 1 = 0) ∧
    (∀ j, j < Lb + (Lb + 2) / 3 → (j + 1) % 4 ≠ 0 →
      ((packMLP c d).drop (c.WEIGHTS_0_COUNT + c.WEIGHTS_1_COUNT + c.WEIGHTS_2_COUNT +
        c.BIAS_0_COUNT + c.BIAS_1_COUNT)).getD j 0 = d.bias_2_array.getD (j - j / 4) 0) ∧
    (packMLP c d).drop (c.WEIGHTS_0_COUNT + c.WEIGHTS_1_COUNT + c.WEIGHTS_2_COUNT +
      c.BIAS_0_COUNT + c.BIAS_1_COUNT) = specLayer2Pack d.bias_2_array := by
  obtain ⟨mw, rfl⟩ := hw3
  obtain ⟨mb, rfl⟩ := hb3
  have hw4 : c.WEIGHTS_2_COUNT = 4 * mw := by omega
  have hb4 : c.BIAS_2_COUNT = 4 * mb := by omega
  refine ⟨?_, ?_, ?_, ?_, ?_, ?_, ?_, ?_⟩
  · rw [packMLP_weights2_segment, padEvery4_length]
    omega
  · intro j hj hmod
    rw [packMLP_weights2_segment, hw4, padEvery4_eq_padChunks]
    exact padChunks_getD_zero _ 1 mw 0 j (by omega) hmod
  · intro j hj hmod
    rw [packMLP_weights2_segment, hw4, padEvery4_eq_padChunks]
    have := padChunks_getD_src (flatten_rows d.weights_2_raw) 0 mw 0 j (by omega) hmod
    simpa using this
  · rw [packMLP_weights2_segment, hw4]
    exact padEvery4_eq_spec _ mw hwlen
  · rw [packMLP_bias2_segment, padEvery4_length]
    omega
  · intro j hj hmod
    rw [packMLP_bias2_segment, hb4, padEvery4_eq_padChunks]
    exact padChunks_getD_zero _ 1 mb 0 j (by omega) hmod
  · intro j hj hmod
    rw [packMLP_bias2_segment, hb4, padEvery4_eq_padChunks]
    have := padChunks_getD_src d.bias_2_array 0 mb 0 j (by omega) hmod
    simpa using this
  · rw [packMLP_bias2_segment, hb4]
    exact padEvery4_eq_spec _ mb hblen

/-- Closed instantiation of `mlp_layer2_padding_rule` at the specification's
example layer-2 source `[1,2,3,4,5,6]` (packed length 8, zero at position 4,
1-indexed). -/
theorem mlp_layer2_padding_rule_witness :
    (((packMLP countsW mlpW).drop (countsW.WEIGHTS_0_COUNT + countsW.WEIGHTS_1_COUNT)).take
      countsW.WEIGHTS_2_COUNT) = specLayer2Pack (flatten_rows mlpW.weights_2_raw) ∧
    (((packMLP countsW mlpW).drop (countsW.WEIGHTS_0_COUNT + countsW.WEIGHTS_1_COUNT)).take
      countsW.WEIGHTS_2_COUNT).getD 3 1 = 0 ∧
    (((packMLP countsW mlpW).drop (countsW.WEIGHTS_0_COUNT + countsW.WEIGHTS_1_COUNT)).take
      countsW.WEIGHTS_2_COUNT).length = 6 + (6 + 2) / 3 := by
  have h := mlp_layer2_padding_rule countsW mlpW 6 3 (by rfl) (by norm_num) (by rfl)
    (by rfl) (by norm_num) (by rfl)
  exact ⟨h.2.2.2.1, h.2.1 3 (by norm_num) (by norm_num), h.1⟩

/-- C5: packing a layer-2 source array (length divisible by 3, padded length
`L + ceil(L/3)`) and then dropping every 4th element of the result recovers
the source exactly. -/
theorem mlp_pack_unpack_roundtrip (src : List ℚ) (h3 : 3 ∣ src.length) :
    dropEvery4 0 (padEvery4 src (src.length + (src.length + 2) / 3)) = src := by
  obtain ⟨m, hm⟩ := h3
  have h4 : src.length + (src.length + 2) / 3 = 4 * m := by omega
  rw [h4, padEvery4_eq_spec src m hm]
  have key : ∀ (m : ℕ) (src : List ℚ), src.length = 3 * m → ∀ k,
      dropEvery4 (4 * k) (specLayer2Pack src) = src := by
    intro m
    induction m with
    | zero =>
        intro src h k
        have hnil : src = [] := List.length_eq_zero.mp (by omega)
        subst hnil
        rfl
    | succ m ih =>
        intro src h k
        obtain ⟨a, b, e, rest, rfl⟩ : ∃ a b e rest, src = a :: b :: e :: rest := by
          match src with
          | a :: b :: e :: rest => exact ⟨a, b, e, rest, rfl⟩
          | [] => exact absurd h (by simp)
          | [a] => exact absurd h (by simp; omega)
          | [a, b] => exact absurd h (by simp; omega)
        have hrest : rest.length = 3 * m := by
          simp only [List.length_cons] at h
          omega
        have h1 : ¬ (4 * k + 1) % 4 = 0 := by omega
        have h2 : ¬ (4 * k + 1 + 1) % 4 = 0 := by omega
        have h3 : ¬ (4 * k + 1 + 1 + 1) % 4 = 0 := by omega
        have hz : (4 * k + 1 + 1 + 1 + 1) % 4 = 0 := by omega
        show dropEvery4 (4 * k) (a :: b :: e :: 0 :: specLayer2Pack rest) = _
        simp only [dropEvery4, if_neg h1, if_neg h2, if_neg h3, if_pos hz]
        rw [show 4 * k + 1 + 1 + 1 + 1 = 4 * (k + 1) from by ring, ih rest hrest (k + 1)]
  have := key m src hm 0
  simpa using this

/-- Closed instantiation of `mlp_pack_unpack_roundtrip` on the
specification's example source. -/
theorem mlp_pack_unpack_roundtrip_witness :
    dropEvery4 0 (padEvery4 [1, 2, 3, 4, 5, 6] (6 + (6 + 2) / 3)) = [1, 2, 3, 4, 5, 6] :=
  mlp_pack_unpack_roundtrip [1, 2, 3, 4, 5, 6] (by decide)

/-- C6: for a well-sized description, the layer-0 and layer-1 weight matrices
(flattened row-major) and bias vectors are copied into the packed buffer
verbatim, in order, with no padding inserted, and the total element count of
the buffer is the fixed compile-time sum. -/
theorem mlp_layers01_verbatim (c : MLPCounts) (d : MLPDescription)
    (h0 : (flatten_rows d.weights_0_raw).length = c.WEIGHTS_0_COUNT)
    (h1 : (flatten_rows d.weights_1_raw).length = c.WEIGHTS_1_COUNT)
    (hb0 : d.bias_0_array.length = c.BIAS_0_COUNT)
    (hb1 : d.bias_1_array.length = c.BIAS_1_COUNT) :
    (packMLP c d).take c.WEIGHTS_0_COUNT = flatten_rows d.weights_0_raw ∧
    ((packMLP c d).drop c.WEIGHTS_0_COUNT).take c.WEIGHTS_1_COUNT =
      flatten_rows d.weights_1_raw ∧
    ((packMLP c d).drop (c.WEIGHTS_0_COUNT + c.WEIGHTS_1_COUNT + c.WEIGHTS_2_COUNT)).take
      c.BIAS_0_COUNT = d.bias_0_array ∧
    ((packMLP c d).drop (c.WEIGHTS_0_COUNT + c.WEIGHTS_1_COUNT + c.WEIGHTS_2_COUNT +
      c.BIAS_0_COUNT)).take c.BIAS_1_COUNT = d.bias_1_array ∧
    flatten_rows d.weights_0_raw = d.weights_0_raw.flatten ∧
    flatten_rows d.weights_1_raw = d.weights_1_raw.flatten ∧
    (packMLP c d).length = c.WEIGHTS_0_COUNT + c.WEIGHTS_1_COUNT + c.WEIGHTS_2_COUNT +
      c.BIAS_0_COUNT + c.BIAS_1_COUNT + c.BIAS_2_COUNT := by
  refine ⟨?_, ?_, ?_, ?_, flatten_rows_eq_flatten _, flatten_rows_eq_flatten _, ?_⟩
  · rw [packMLP_weights0_segment, copySeg_eq_self _ _ h0]
  · rw [packMLP_weights1_segment, copySeg_eq_self _ _ h1]
  · rw [packMLP_bias0_segment, copySeg_eq_self _ _ hb0]
  · rw [packMLP_bias1_segment, copySeg_eq_self _ _ hb1]
  · simp [packMLP, copySeg_length, padEvery4_length]
    omega

/-- Closed instantiation of `mlp_layers01_verbatim` at the example
description. -/
theorem mlp_layers01_verbatim_witness :
    (packMLP countsW mlpW).take countsW.WEIGHTS_0_COUNT = flatten_rows mlpW.weights_0_raw ∧
    (packMLP countsW mlpW).length = countsW.WEIGHTS_0_COUNT + countsW.WEIGHTS_1_COUNT +
      countsW.WEIGHTS_2_COUNT + countsW.BIAS_0_COUNT + countsW.BIAS_1_COUNT +
      countsW.BIAS_2_COUNT := by
  have h := mlp_layers01_verbatim countsW mlpW (by rfl) (by rfl) (by rfl) (by rfl)
  exact ⟨h.1, h.2.2.2.2.2.2⟩

/-- C7: for every description, the packer produces the full fixed-size buffer
(no abort path), and whenever any weight or bias count differs from the
expected constants it logs a mismatch warning; packing proceeds regardless. -/
theorem mlp_mismatch_warns_but_proceeds (c : MLPCounts) (d : MLPDescription) :
    (initialize_mlp_uniform_buffers c d).2.length =
      c.WEIGHTS_0_COUNT + c.WEIGHTS_1_COUNT + c.WEIGHTS_2_COUNT +
      c.BIAS_0_COUNT + c.BIAS_1_COUNT + c.BIAS_2_COUNT ∧
    (mlpSizeMismatch c d → (initialize_mlp_uniform_buffers c d).1 ≠ []) := by
  constructor
  · show (packMLP c d).length = _
    simp [packMLP, copySeg_length, padEvery4_length]
    omega
  · intro h
    show mlpSizeWarnings c d ≠ []
    rw [← List.length_pos_iff_ne_nil]
    rw [mlpSizeWarnings]
    simp only [List.length_append, apply_ite List.length, List.length_singleton,
      List.length_nil]
    rcases h with h | h | h | h | h | h <;> split_ifs <;> omega

/-- Closed instantiation of `mlp_mismatch_warns_but_proceeds` at a
description whose layer-0 weight count disagrees with the expectation. -/
theorem mlp_mismatch_warns_but_proceeds_witness :
    (initialize_mlp_uniform_buffers countsMismatch mlpW).2.length =
      countsMismatch.WEIGHTS_0_COUNT + countsMismatch.WEIGHTS_1_COUNT +
      countsMismatch.WEIGHTS_2_COUNT + countsMismatch.BIAS_0_COUNT +
      countsMismatch.BIAS_1_COUNT + countsMismatch.BIAS_2_COUNT ∧
    (initialize_mlp_uniform_buffers countsMismatch mlpW).1 ≠ [] := by
  have h := mlp_mismatch_warns_but_proceeds countsMismatch mlpW
  exact ⟨h.1, h.2 (Or.inl (by decide))⟩

/-- C2: topology selection.  With deferred = true the render pass built by
`prepare` has exactly 2 sub-passes and 5 attachments and its second sub-pass
lists exactly 3 input attachments, and the second-pass descriptor layout
requires exactly 3 input-attachment bindings; with deferred = false it has
exactly 1 sub-pass, 2 attachments, its sub-pass lists 0 input attachments,
and the first-pass layout requires 0 input-attachment bindings. -/
theorem topology_selection (feature_map_format depth_format swapchain_format : VkFormat) :
    (build_render_pass_nerf true feature_map_format depth_format swapchain_format).subpasses.length = 2 ∧
    (build_render_pass_nerf true feature_map_format depth_format swapchain_format).attachments.length = 5 ∧
    ((build_render_pass_nerf true feature_map_format depth_format swapchain_format).subpasses.get? 1).map
      (fun sp => sp.inputAttachments.length) = some 3 ∧
    inputAttachmentBindingCount create_pipeline_layout_baseline = 3 ∧
    (build_render_pass_nerf false feature_map_format depth_format swapchain_format).subpasses.length = 1 ∧
    (build_render_pass_nerf false feature_map_format depth_format swapchain_format).attachments.length = 2 ∧
    ((build_render_pass_nerf false feature_map_format depth_format swapchain_format).subpasses.get? 0).map
      (fun sp => sp.inputAttachments.length) = some 0 ∧
    inputAttachmentBindingCount (create_pipeline_layout_fist_pass false) = 0 ∧
    inputAttachmentBindingCount (create_pipeline_layout_fist_pass true) = 0 :=
  ⟨rfl, rfl, rfl, rfl, rfl, rfl, rfl, rfl, rfl⟩

/-- The indexed draws a frame records are exactly one per model, each with
instance count `dim.x * dim.y * dim.z`. -/
theorem frame_draws_eq_map (use_deferred : Bool) (frame : ℕ) (dim : ℕ × ℕ × ℕ)
    (models : List ModelRec) :
    (build_command_buffer_frame use_deferred frame dim models).filter isDrawIndexed =
      models.map fun m =>
        Cmd.drawIndexed (m.indicesSize * 3) (dim.1 * dim.2.1 * dim.2.2) 0 0 0 := by
  have hmodels : ∀ ms : List ModelRec,
      (ms.flatMap (record_model use_deferred frame dim)).filter isDrawIndexed =
        ms.map (fun m =>
          Cmd.drawIndexed (m.indicesSize * 3) (dim.1 * dim.2.1 * dim.2.2) 0 0 0) := by
    intro ms
    induction ms with
    | nil => rfl
    | cons m t ih =>
        simp only [List.flatMap_cons, List.filter_append, ih, record_model]
        simp [isDrawIndexed]
  rw [build_command_buffer_frame]
  simp only [List.filter_append, hmodels]
  cases use_deferred <;> simp [isDrawIndexed]

/-- C8: per-frame recording issues, for every model, exactly one indexed
instanced draw with instance count `dim.x * dim.y * dim.z`; and the
end-to-end scenario (non-combo scene, 1 model path, `obj_num` 1, dim
`(1,1,1)`) yields exactly one model entry and exactly one draw of instance
count 1. -/
theorem per_frame_draw_calls (use_deferred : Bool) (frame : ℕ) (dim : ℕ × ℕ × ℕ)
    (models : List ModelRec) :
    ((build_command_buffer_frame use_deferred frame dim models).filter isDrawIndexed).length =
      models.length ∧
    (build_command_buffer_frame use_deferred frame dim models).filter isDrawIndexed =
      (models.map fun m =>
        Cmd.drawIndexed (m.indicesSize * 3) (dim.1 * dim.2.1 * dim.2.2) 0 0 0) ∧
    model_path_count false 4 = 1 ∧
    models_entry_count [1] = 1 ∧
    (build_command_buffer_frame false 0 (1, 1, 1)
        [{ pipeline := 7, indicesSize := 5 }]).filter isDrawIndexed =
      [Cmd.drawIndexed 15 1 0 0 0] := by
  refine ⟨?_, frame_draws_eq_map use_deferred frame dim models, rfl, rfl, ?_⟩
  · rw [frame_draws_eq_map]
    simp
  · rw [frame_draws_eq_map]
    rfl

/-- Re-chunking a list of length `n * s` into `n` chunks of `s` bytes and
flattening recovers the list. -/
theorem chunks_flatten (s : ℕ) (hs : 0 < s) :
    ∀ (n : ℕ) (bytes : List ℕ), bytes.length = n * s →
      ((List.range n).map fun i => (bytes.drop (i * s)).take s).flatten = bytes := by
  intro n
  induction n with
  | zero =>
      intro bytes h
      simp only [Nat.zero_mul, List.length_eq_zero] at h
      simp [h]
  | succ n ih =>
      intro bytes h
      rw [List.range_succ_eq_map]
      simp only [List.map_cons, List.map_map, List.flatten_cons]
      have hmap : (List.range n).map ((fun i => (bytes.drop (i * s)).take s) ∘ Nat.succ) =
          (List.range n).map fun i => (((bytes.drop s).drop (i * s)).take s) := by
        apply List.map_congr_left
        intro i _
        simp only [Function.comp_apply]
        rw [List.drop_drop]
        congr 2
        rw [Nat.succ_mul]
        omega
      rw [hmap, ih (bytes.drop s) (by simp only [List.length_drop, h]; ring_nf; omega)]
      simp [List.take_append_drop s bytes]

/-- C9: `CopyBuffer` is total at its interface: an absent buffer name yields
the empty vector with no map/unmap events; a present buffer yields exactly
`size / elemSize` elements whose bytes are the buffer's bytes, the buffer's
mapped state is restored, and map/unmap is issued only when the buffer was
not already mapped on entry. -/
theorem copy_buffer_total (elemSize : ℕ) (hs : 0 < elemSize)
    (buffers : List (String × BufferState)) (buffer_name : String) :
    (buffers.lookup buffer_name = none →
      CopyBuffer elemSize buffers buffer_name = ([], [], none)) ∧
    (∀ b, buffers.lookup buffer_name = some b → b.bytes.length = b.size →
      elemSize ∣ b.size →
      (CopyBuffer elemSize buffers buffer_name).1.length = b.size / elemSize ∧
      (CopyBuffer elemSize buffers buffer_name).1.flatten = b.bytes ∧
      (CopyBuffer elemSize buffers buffer_name).2.2 = some b.mapped ∧
      (CopyBuffer elemSize buffers buffer_name).2.1 =
        (if b.mapped then [] else [MapEvent.map, MapEvent.unmap])) := by
  constructor
  · intro hnone
    rw [CopyBuffer, hnone]
  · intro b hsome hbytes hdvd
    rw [CopyBuffer, hsome]
    obtain ⟨q, hq⟩ := hdvd
    have hqdiv : b.size / elemSize = q := by
      rw [hq, Nat.mul_div_cancel_left q hs]
    refine ⟨by simp [hqdiv], ?_, ?_, ?_⟩
    · simp only [hqdiv]
      exact chunks_flatten elemSize hs q b.bytes (by rw [hbytes, hq, Nat.mul_comm])
    · cases hb : b.mapped <;> simp [hb]
    · cases hb : b.mapped <;> simp [hb]

/-- Closed instantiation of `copy_buffer_total`: an absent name returns the
empty vector; a present unmapped 4-byte buffer with 1-byte elements returns
its bytes and a map/unmap pair. -/
theorem copy_buffer_total_witness :
    CopyBuffer 1 buffersW "missing" = ([], [], none) ∧
    (CopyBuffer 1 buffersW "position").1.length = 4 ∧
    (CopyBuffer 1 buffersW "position").1.flatten = [10, 11, 12, 13] ∧
    (CopyBuffer 1 buffersW "position").2.2 = some false ∧
    (CopyBuffer 1 buffersW "position").2.1 = [MapEvent.map, MapEvent.unmap] := by
  have habs := (copy_buffer_total 1 (by norm_num) buffersW "missing").1 (by rfl)
  have hpos := (copy_buffer_total 1 (by norm_num) buffersW "position").2
    { size := 4, bytes := [10, 11, 12, 13], mapped := false } (by rfl) (by rfl) (by norm_num)
  exact ⟨habs, hpos.1, hpos.2.1, hpos.2.2.1, hpos.2.2.2⟩

/-- C4: for every scene entry whose instancing dimension or interval triple
has a non-positive component, or whose `dim`/`interval` field is absent or
not a 3-element array, `read_json_map` terminates fatally (`exit(1)`), and
`prepare` performs no GPU-resource-creating phase before that termination. -/
theorem scene_fatal_before_gpu (asset_map : Json) (default_cam : Vec3Q)
    (h : badInstancing asset_map) :
    exceptIsOk (read_json_map asset_map default_cam) = false ∧
    Nerf_prepare asset_map default_cam = ([], true) := by
  have hfail : exceptIsOk (read_json_map asset_map default_cam) = false := by
    rw [read_json_map]
    by_cases hb1 : ((asset_map.index "instancing").index "dim").isArrayOf3 = true
    · by_cases hb2 : ((asset_map.index "instancing").index "interval").isArrayOf3 = true
      · rw [if_pos hb1, if_pos hb2]
        have hcond : (instancingDim asset_map).1 ≤ 0 ∨ (instancingDim asset_map).2.1 ≤ 0 ∨
            (instancingDim asset_map).2.2 ≤ 0 ∨ (instancingInterval asset_map).1 ≤ 0 ∨
            (instancingInterval asset_map).2.1 ≤ 0 ∨ (instancingInterval asset_map).2.2 ≤ 0 := by
          rcases h with h | h | hrest
          · exact absurd hb1 h
          · exact absurd hb2 h
          · exact hrest
        rw [if_pos hcond]
        rfl
      · rw [if_pos hb1, if_neg hb2]
        rfl
    · rw [if_neg hb1]
      rfl
  refine ⟨hfail, ?_⟩
  rw [Nerf_prepare]
  cases hread : read_json_map asset_map default_cam with
  | error e => rfl
  | ok r => rw [hread] at hfail; exact absurd hfail (by simp [exceptIsOk])

/-- Closed instantiation of `scene_fatal_before_gpu` at a scene entry whose
instancing dimension is `[0, 1, 1]`. -/
theorem scene_fatal_before_gpu_witness :
    exceptIsOk (read_json_map assetMapBadDim (0, 0, 0)) = false ∧
    Nerf_prepare assetMapBadDim (0, 0, 0) = ([], true) :=
  scene_fatal_before_gpu assetMapBadDim (0, 0, 0)
    (Or.inr (Or.inr (Or.inl (by decide))))

/-- C10: for every scene entry configuring camera position `(x, y, z)`,
`prepare` applies position `(x, -y, z)` — the y component negated — as the
camera position, before the look-at toward the origin is computed. -/
theorem camera_start_y_negated (asset_map : Json) (default_cam : Vec3Q) (x y z : ℚ)
    (hc : asset_map.index "camera" = Json.arr [Json.num x, Json.num y, Json.num z])
    (setup : CameraSetup)
    (hok : prepare_camera asset_map default_cam = Except.ok setup) :
    setup.position = (x, -y, z) ∧ setup.look_target = (0, 0, 0) := by
  have hcam : read_camera_pos asset_map default_cam = (x, y, z) := by
    rw [read_camera_pos, hc]
    simp [Json.isArrayOf3, Json.item, Json.toRat]
  rw [prepare_camera, read_json_map] at hok
  by_cases hb1 : ((asset_map.index "instancing").index "dim").isArrayOf3 = true
  · by_cases hb2 : ((asset_map.index "instancing").index "interval").isArrayOf3 = true
    · rw [if_pos hb1, if_pos hb2] at hok
      by_cases hb3 : (instancingDim asset_map).1 ≤ 0 ∨ (instancingDim asset_map).2.1 ≤ 0 ∨
          (instancingDim asset_map).2.2 ≤ 0 ∨ (instancingInterval asset_map).1 ≤ 0 ∨
          (instancingInterval asset_map).2.1 ≤ 0 ∨ (instancingInterval asset_map).2.2 ≤ 0
      · rw [if_pos hb3] at hok
        exact absurd hok (by simp [Except.map])
      · rw [if_neg hb3] at hok
        simp only [Except.map, Except.ok.injEq] at hok
        rw [← hok]
        rw [hcam]
        exact ⟨rfl, rfl⟩
    · rw [if_pos hb1, if_neg hb2] at hok
      exact absurd hok (by simp [Except.map])
  · rw [if_neg hb1] at hok
    exact absurd hok (by simp [Except.map])

/-- Closed instantiation of `camera_start_y_negated` at the embedded
`lego_ball`-shaped entry with camera `[-1, 1, 1]`. -/
theorem camera_start_y_negated_witness :
    ({ position := (-1, -1, 1), look_target := (0, 0, 0), up := (0, 1, 0) } :
      CameraSetup).position = (-1, -(1 : ℚ), 1) ∧
    ({ position := (-1, -1, 1), look_target := (0, 0, 0), up := (0, 1, 0) } :
      CameraSetup).look_target = (0, 0, 0) := by
  exact camera_start_y_negated assetMapLegoBall (0, 0, 0) (-1) 1 1 (by rfl)
    { position := (-1, -1, 1), look_target := (0, 0, 0), up := (0, 1, 0) } (by rfl)
